import Mathlib

/-!
Verification of the omaha-update poker-table detection system against its
specification.  The repository snapshot contains the web presentation layer
(`src/apps/server/web/static/client-app.js`); those functions are embedded
directly.  The detection/game-state engine itself is not present in the
snapshot, so its parts are modelled from the specification (each such
definition says so in its doc comment).
-/

namespace OmahaUpdate

/-- A single-quote character as a string, used when embedding the JavaScript
template literals that contain quoted `onclick` arguments. -/
def squote : String := String.singleton (Char.ofNat 39)

/-- Embedding of JavaScript `card.slice(-1)`: the one-character string holding
the last character of `card`, or the empty string when `card` is empty. -/
def sliceLast (s : String) : String :=
  match s.data.getLast? with
  | some c => String.singleton c
  | none => ""

/-- Embedding of `getSuitColor` (client-app.js lines 60-66): the display color
is chosen from the final character of the card's display string. -/
def getSuitColor (card : String) : String :=
  let suit := sliceLast card
  if suit = "♥" then "red"
  else if suit = "♦" then "blue"
  else if suit = "♣" then "green"
  else "black"

/-- The character class matched by the JavaScript regular expression `\s`
(whitespace): space, tab, line terminators, form/vertical feed and the
Unicode space separators recognized by ECMAScript. -/
def isJsWhitespace (c : Char) : Bool :=
  c = ' ' || c = '\t' || c = '\n' || c = '\r' ||
  c.toNat = 0x0b || c.toNat = 0x0c || c.toNat = 0xa0 || c.toNat = 0x1680 ||
  (0x2000 ≤ c.toNat && c.toNat ≤ 0x200a) ||
  c.toNat = 0x2028 || c.toNat = 0x2029 ||
  c.toNat = 0x202f || c.toNat = 0x205f || c.toNat = 0x3000 || c.toNat = 0xfeff

/-- Embedding of `text.replace(/\s+/g, ...)` with an empty replacement:
replacing every maximal whitespace run by the empty string is the same as
deleting every whitespace character. -/
def stripWhitespace (s : String) : String :=
  String.mk (s.data.filter (fun c => !isJsWhitespace c))

/-- Embedding of `copyToClipboard` (client-app.js lines 12-22), restricted to
the text it hands to the clipboard: `text ? text.replace(/\s+/g, ...) : ...`
where `none` stands for the JavaScript `null`/`undefined` inputs and the empty
string is likewise falsy. -/
def copyToClipboardText (text : Option String) : String :=
  match text with
  | some s => if s = "" then "" else stripWhitespace s
  | none => ""

/-- JSON values as delivered to the client by `response.json()`: the
detections record compared by `detectChanges` is such a value.  Numeric
literals are kept in their serialized form. -/
inductive Json where
  | null : Json
  | bool (b : Bool) : Json
  | num (lit : String) : Json
  | str (s : String) : Json
  | arr (elems : List Json) : Json
  | obj (fields : List (String × Json)) : Json

/-- One hexadecimal digit, lower case, as produced by `JSON.stringify` in
`\u00XX` escapes. -/
def hexDigit (n : Nat) : Char :=
  if n < 10 then Char.ofNat (48 + n) else Char.ofNat (87 + n)

/-- Escaping of a single character inside a JSON string, as performed by
`JSON.stringify`. -/
def escapeJsonChar (c : Char) : String :=
  if c = Char.ofNat 34 then "\\\""
  else if c = Char.ofNat 92 then "\\\\"
  else if c = '\n' then "\\n"
  else if c = '\t' then "\\t"
  else if c = '\r' then "\\r"
  else if c.toNat = 8 then "\\b"
  else if c.toNat = 12 then "\\f"
  else if c.toNat < 32 then
    "\\u00" ++ String.mk [hexDigit (c.toNat / 16), hexDigit (c.toNat % 16)]
  else String.singleton c

/-- A JSON string literal: the quoted, escaped form of `s`. -/
def quoteJson (s : String) : String :=
  "\"" ++ String.join (s.data.map escapeJsonChar) ++ "\""

mutual

/-- Embedding of `JSON.stringify` on parsed JSON values: elements are joined
with commas and no extra whitespace, object fields keep their order. -/
def stringify : Json → String
  | Json.null => "null"
  | Json.bool true => "true"
  | Json.bool false => "false"
  | Json.num lit => lit
  | Json.str s => quoteJson s
  | Json.arr elems => "[" ++ stringifyElems elems ++ "]"
  | Json.obj fields => "\x7b" ++ stringifyFields fields ++ "\x7d"

/-- Comma-separated serialization of a JSON array's elements. -/
def stringifyElems : List Json → String
  | [] => ""
  | [x] => stringify x
  | x :: y :: rest => stringify x ++ "," ++ stringifyElems (y :: rest)

/-- Comma-separated serialization of a JSON object's fields. -/
def stringifyFields : List (String × Json) → String
  | [] => ""
  | [(k, v)] => quoteJson k ++ ":" ++ stringify v
  | (k, v) :: f :: rest => quoteJson k ++ ":" ++ stringify v ++ "," ++ stringifyFields (f :: rest)

end

/-- Embedding of `detectChanges` (client-app.js lines 68-72 and 534-538): the
stored `previousDetections` is passed explicitly; the result is the
inequality of the two `JSON.stringify` serializations. -/
def detectChanges (previousDetections newDetections : Json) : Bool :=
  let newStr := stringify newDetections
  let prevStr := stringify previousDetections
  newStr != prevStr

/-- The client configuration record (client-app.js lines 1-7): the capture
interval and the four display toggles. -/
structure Config where
  backend_capture_interval : Nat
  show_table_cards : Bool
  show_positions : Bool
  show_moves : Bool
  show_solver_link : Bool
deriving DecidableEq

/-- A card record as consumed by the rendering code: only its `display`
string is read. -/
structure CardRec where
  display : String
deriving DecidableEq

/-- A position record: `position.player` and `position.name` are read. -/
structure PositionRec where
  player : String
  name : String
deriving DecidableEq

/-- A move record as consumed by `createMovesSection`: `none` stands for a
JavaScript `null`/absent `amount`. -/
structure MoveRec where
  player_label : String
  action : String
  amount : Option Nat
deriving DecidableEq

/-- One street's entry in the `moves` list: a street name and its ordered
move list. -/
structure StreetMoves where
  street : String
  moves : List MoveRec
deriving DecidableEq

/-- The per-table detection record rendered by the client.  Fields that are
falsy in JavaScript when absent (`street`, `solver_link`) are plain strings
with the empty string standing for `null`/`undefined`; absent lists are
the empty list. -/
structure Detection where
  window_name : String
  player_cards : List CardRec
  player_cards_string : String
  table_cards : List CardRec
  table_cards_string : String
  street : String
  positions : List PositionRec
  moves : List StreetMoves
  solver_link : String
  last_update : String
deriving DecidableEq

/-- The card `<div>` built for each card in the player/table card sections. -/
def cardDiv (card : CardRec) : String :=
  "<div class=\"card " ++ getSuitColor card.display ++ "\">" ++ card.display ++ "</div>"

/-- Embedding of `createPlayerCardsSection` (client-app.js lines 74-86). -/
def createPlayerCardsSection (detection : Detection) (isUpdate : Bool) : String :=
  let cardsClass := if isUpdate then "cards-block new-cards" else "cards-block"
  if detection.player_cards.length > 0 then
    let cardsHtml := String.join (detection.player_cards.map cardDiv)
    "<div class=\"" ++ cardsClass ++ "\" onclick=\"copyToClipboard(" ++ squote ++
      detection.player_cards_string ++ squote ++ ")\">" ++ cardsHtml ++ "</div>"
  else
    "<div class=\"no-cards\">No cards detected</div>"

/-- Embedding of `createTableCardsSection` (client-app.js lines 88-113); when
`config.show_table_cards` is false it returns the empty string. -/
def createTableCardsSection (config : Config) (detection : Detection) (isUpdate : Bool) : String :=
  if !config.show_table_cards then ""
  else
    let cardsClass := if isUpdate then "cards-block new-cards" else "cards-block"
    let streetClass :=
      if detection.street ≠ "" && detection.street.startsWith "ERROR" then
        "street-indicator error"
      else "street-indicator"
    let streetDisplay :=
      if detection.street ≠ "" then
        "<span class=\"" ++ streetClass ++ "\">" ++ detection.street ++ "</span>"
      else ""
    let cardsHtml :=
      if detection.table_cards.length > 0 then
        let cards := String.join (detection.table_cards.map cardDiv)
        "<div class=\"" ++ cardsClass ++ "\" onclick=\"copyToClipboard(" ++ squote ++
          detection.table_cards_string ++ squote ++ ")\">" ++ cards ++ "</div>"
      else "<div class=\"no-cards\">No cards detected</div>"
    "\n        <div class=\"table-cards-column\">\n            <div class=\"cards-label\">Table Cards: "
      ++ streetDisplay ++ "</div>\n            <div class=\"cards-container\">" ++ cardsHtml ++
      "</div>\n        </div>\n    "

/-- Embedding of `createPositionsSection` (client-app.js lines 115-140); when
`config.show_positions` is false it returns the empty string. -/
def createPositionsSection (config : Config) (detection : Detection) (isUpdate : Bool) : String :=
  if !config.show_positions then ""
  else
    let positionsClass := if isUpdate then "positions-block new-positions" else "positions-block"
    let positionsHtml :=
      if detection.positions.length > 0 then
        let positions := String.join (detection.positions.map (fun position =>
          "<div class=\"position\">" ++ position.player ++ " " ++ position.name ++ "</div>"))
        "<div class=\"" ++ positionsClass ++ "\">" ++ positions ++ "</div>"
      else "<div class=\"no-positions\">No position detected</div>"
    "\n        <div class=\"positions-column\">\n            <div class=\"cards-label\">Positions:</div>\n            <div class=\"positions-container\">\n                "
      ++ positionsHtml ++ "\n            </div>\n        </div>\n    "

/-- The text rendered for one move inside `createMovesSection` (client-app.js
lines 160-167): the dollar amount is appended only when `move.amount > 0`. -/
def renderMove (move : MoveRec) : String :=
  let moveText := move.player_label ++ ": " ++ move.action
  let moveText :=
    match move.amount with
    | some a => if a > 0 then moveText ++ " $" ++ toString a else moveText
    | none => moveText
  "<div class=\"move\">" ++ moveText ++ "</div>"

/-- Embedding of `createMovesSection` (client-app.js lines 142-185); when
`config.show_moves` is false it returns the empty string. -/
def createMovesSection (config : Config) (detection : Detection) (isUpdate : Bool) : String :=
  if !config.show_moves then ""
  else if detection.moves.length = 0 then
    "\n            <div class=\"cards-section\">\n                <div class=\"cards-label\">Moves History:</div>\n                <div class=\"moves-by-street\">\n                    <div class=\"no-moves\">No moves detected</div>\n                </div>\n            </div>\n        "
  else
    let movesClass := if isUpdate then "street-moves-block new-moves" else "street-moves-block"
    let movesHtml := String.join (detection.moves.map (fun streetData =>
      let moves := String.join (streetData.moves.map renderMove)
      "\n            <div class=\"" ++ movesClass ++ "\">\n                <div class=\"street-moves-header\">"
        ++ streetData.street ++ "</div>\n                <div class=\"street-moves-list\">" ++ moves ++
        "</div>\n            </div>\n        "))
    "\n        <div class=\"cards-section\">\n            <div class=\"cards-label\">Moves History:</div>\n            <div class=\"moves-by-street\">\n                "
      ++ movesHtml ++ "\n            </div>\n        </div>\n    "

/-- Embedding of `createSolverLinkSection` (client-app.js lines 187-204); it
returns the empty string when `config.show_solver_link` is false or the
detection carries no solver link. -/
def createSolverLinkSection (config : Config) (detection : Detection) (isUpdate : Bool) : String :=
  if !config.show_solver_link || detection.solver_link = "" then ""
  else
    let linkClass := if isUpdate then "solver-link-block new-solver-link" else "solver-link-block"
    "\n        <div class=\"cards-section\">\n            <div class=\"cards-label\">Solver Analysis !!!BETA!!!:</div>\n            <div class=\""
      ++ linkClass ++ "\">\n                <a href=\"" ++ detection.solver_link ++
      "\" target=\"_blank\" class=\"solver-link\">\n                    Open in FlopHero 🔗\n                </a>\n            </div>\n        </div>\n    "

/-- A concrete detection record with every section populated, used to
exercise the section builders. -/
def sampleDetection : Detection :=
  { window_name := "Table 1"
    player_cards := [⟨"A♥"⟩, ⟨"K♠"⟩]
    player_cards_string := "Ah Ks"
    table_cards := [⟨"Q♦"⟩, ⟨"J♣"⟩, ⟨"2♠"⟩]
    table_cards_string := "Qd Jc 2s"
    street := "Flop"
    positions := [⟨"Player 1", "BTN"⟩]
    moves := [⟨"Flop", [⟨"Player 1", "raise", some 50⟩]⟩]
    solver_link := "https://example.org/hand"
    last_update := "2025-01-01T00:00:00Z" }

/-- Modelled from the spec: the detection engine is not part of the source
snapshot (only the web client is), so `Street` follows §3: "enumeration
\x7bPreflop, Flop, Turn, River\x7d". -/
inductive Street where
  | preflop
  | flop
  | turn
  | river
deriving DecidableEq

/-- Modelled from the spec: "a pure function of community-card count
(0→Preflop, 3→Flop, 4→Turn, 5→River)"; "any other c is invalid input and
must not be silently coerced", so the invalid counts map to `none`. -/
def streetOfCount (c : Nat) : Option Street :=
  if c = 0 then some Street.preflop
  else if c = 3 then some Street.flop
  else if c = 4 then some Street.turn
  else if c = 5 then some Street.river
  else none

/-- Modelled from the spec: the explicit tagged action kinds of a Move
(§3: "action kind (fold/check/call/raise)"). -/
inductive ActionKind where
  | fold
  | check
  | call
  | raise
deriving DecidableEq

/-- Modelled from the spec: a Move as inferred by the Game State Tracker
(§3: "\x7bseat, action kind, amount (optional)\x7d"). -/
structure MoveM where
  seat : Nat
  kind : ActionKind
  amount : Option Nat
deriving DecidableEq

/-- Modelled from the spec: the per-cycle detection results consumed by the
Game State Tracker — the accepted community-card count, the detected hole
cards, and the move candidate inferred from this cycle's readings (`none`
when no candidate was inferred). -/
structure Cycle where
  commCount : Nat
  hole : List String
  candidate : Option MoveM
deriving DecidableEq

/-- Modelled from the spec: the per-table Game State Tracker state — the
hand-epoch counter, the last seen community-card count, the hole cards, the
pending (uncommitted) move candidate, and the committed Move history. -/
structure TrackerState where
  epoch : Nat
  commCount : Nat
  hole : List String
  pending : Option MoveM
  history : List MoveM
deriving DecidableEq

/-- Modelled from the spec: one detection-cycle step of the Game State
Tracker.  Per §8/§3, "a decrease in community-card count, or a change in hole
cards, always increments the hand epoch and clears Move history; no other
condition does"; per §4.4, "a move is only committed once confirmed stable
across two consecutive detection cycles; until confirmed it is held as a
pending candidate". -/
def stepTracker (s : TrackerState) (o : Cycle) : TrackerState :=
  if o.commCount < s.commCount ∨ o.hole ≠ s.hole then
    { epoch := s.epoch + 1, commCount := o.commCount, hole := o.hole,
      pending := none, history := [] }
  else
    match o.candidate, s.pending with
    | some m, some p =>
      if m = p then
        { s with commCount := o.commCount, pending := none, history := s.history ++ [m] }
      else
        { s with commCount := o.commCount, pending := some m }
    | some m, none => { s with commCount := o.commCount, pending := some m }
    | none, _ => { s with commCount := o.commCount, pending := none }

/-- Modelled from the spec: the tracker run over a whole sequence of
detection cycles. -/
def runTracker (s : TrackerState) : List Cycle → TrackerState
  | [] => s
  | o :: rest => runTracker (stepTracker s o) rest

/-- Modelled from the spec: the sequence of GameStates produced by the
detection pipeline over a sequence of per-cycle observations (the per-frame
detection itself is a fixed deterministic preprocessing of each frame, §4.3,
so the pipeline is a function of the observation sequence). -/
def traceTracker (s : TrackerState) : List Cycle → List TrackerState
  | [] => []
  | o :: rest =>
    let s2 := stepTracker s o
    s2 :: traceTracker s2 rest

/-- The move `m` was observed as the inferred candidate in two consecutive
cycles of the observation sequence. -/
inductive ConfirmedTwice (m : MoveM) : List Cycle → Prop where
  | here (o1 o2 : Cycle) (rest : List Cycle)
      (h1 : o1.candidate = some m) (h2 : o2.candidate = some m) :
      ConfirmedTwice m (o1 :: o2 :: rest)
  | there (o : Cycle) (rest : List Cycle)
      (h : ConfirmedTwice m rest) : ConfirmedTwice m (o :: rest)

/-- Modelled from the spec: the outcome of one OCR read of a bid region
(§4.3) — a recognized numeric amount (possibly fractional, since the reader
recognizes the decimal point), or "unknown" for a failed read. -/
inductive Reading where
  | val (amount : ℚ)
  | unknown
deriving DecidableEq

/-- The numeric value of a digit string. -/
def digitsToNat (cs : List Char) : Nat :=
  cs.foldl (fun a c => a * 10 + (c.toNat - 48)) 0

/-- The character set the Bid/Amount Reader recognizes (§4.3): digits and
the decimal point. -/
def isAmountChar (c : Char) : Bool :=
  c.isDigit || c = '.'

/-- The value of a decimal numeral: the digits before the point, plus the
digits after it scaled down by their count. -/
def parseDecimal (cs : List Char) : ℚ :=
  let ip := cs.takeWhile (fun c => c ≠ '.')
  let fp := (cs.dropWhile (fun c => c ≠ '.')).drop 1
  (digitsToNat ip : ℚ) + (digitsToNat fp : ℚ) / (10 : ℚ) ^ fp.length

/-- Modelled from the spec: the Bid/Amount Reader's token handling (§4.3) —
"the character set recognized is restricted to digits and the decimal point;
any other recognized token is treated as a failed read, not as a value.
Failed reads do not throw — they propagate as unknown amount".  A token is a
numeric amount when it is a well-formed decimal numeral over the recognized
character set (non-empty, at least one digit, at most one decimal point);
every other token is a failed read. -/
def ocrRead (tok : String) : Reading :=
  if tok.data ≠ [] ∧ tok.data.all isAmountChar = true ∧
      tok.data.any Char.isDigit = true ∧ tok.data.count '.' ≤ 1 then
    Reading.val (parseDecimal tok.data)
  else Reading.unknown

/-- Modelled from the spec: a seat's committed-amount state in the Game State
Tracker — the last known committed amount (`none` when no amount is known)
and whether an unknown reading is pending corroboration. -/
structure SeatAmount where
  committed : Option ℚ
  pendingUnknown : Bool
deriving DecidableEq

/-- Modelled from the spec: §4.3, "the Game State Tracker must treat unknown
distinctly from zero (zero is a valid bid-cleared state; unknown must not
overwrite a previously known amount unless corroborated by a subsequent
identical reading)". -/
def updateSeatAmount (s : SeatAmount) (r : Reading) : SeatAmount :=
  match r with
  | Reading.val n => { committed := some n, pendingUnknown := false }
  | Reading.unknown =>
    if s.pendingUnknown then { committed := none, pendingUnknown := false }
    else { committed := s.committed, pendingUnknown := true }

/-- C1: `streetOfCount` maps 0 to Preflop, 3 to Flop, 4 to Turn and 5 to
River, and rejects every other community-card count with `none` instead of
coercing it to a street; being a function of the count alone, no other
signal can influence the street. -/
theorem streetOfCount_spec :
    streetOfCount 0 = some Street.preflop ∧
    streetOfCount 3 = some Street.flop ∧
    streetOfCount 4 = some Street.turn ∧
    streetOfCount 5 = some Street.river ∧
    (∀ c : Nat, c ≠ 0 → c ≠ 3 → c ≠ 4 → c ≠ 5 → streetOfCount c = none) := by
  refine ⟨rfl, rfl, rfl, rfl, ?_⟩
  intro c h0 h3 h4 h5
  simp [streetOfCount, h0, h3, h4, h5]

/-- Witness for C1 at the concrete invalid count 2. -/
theorem streetOfCount_spec_witness : streetOfCount 2 = none :=
  streetOfCount_spec.2.2.2.2 2 (by decide) (by decide) (by decide) (by decide)

/-- C4: an OCR token containing any character outside the recognized set
(digits and the decimal point) reads as `unknown` (the read is total, so
nothing is thrown), while a decimal token such as "7.5" reads as a numeric
value; `unknown` is distinct from the amount zero; a single `unknown`
reading leaves a seat's committed amount unchanged (in particular a
committed $75 survives one failed read) while a zero reading does overwrite
it, and only a second corroborating `unknown` clears the committed
amount. -/
theorem unknownAmount_spec :
    (∀ tok : String, tok.data.any (fun c => !isAmountChar c) = true →
      ocrRead tok = Reading.unknown) ∧
    ocrRead "7.5" = Reading.val (15 / 2 : ℚ) ∧
    Reading.unknown ≠ Reading.val 0 ∧
    (∀ s : SeatAmount, s.pendingUnknown = false →
      (updateSeatAmount s Reading.unknown).committed = s.committed) ∧
    (updateSeatAmount ⟨some 75, false⟩ Reading.unknown).committed = some 75 ∧
    (updateSeatAmount ⟨some 75, false⟩ (Reading.val 0)).committed = some 0 ∧
    (updateSeatAmount (updateSeatAmount ⟨some 75, false⟩ Reading.unknown)
      Reading.unknown).committed = none := by
  refine ⟨?_, ?_, by decide, ?_, rfl, rfl, rfl⟩
  · intro tok h
    have hnot : ¬(tok.data ≠ [] ∧ tok.data.all isAmountChar = true ∧
        tok.data.any Char.isDigit = true ∧ tok.data.count '.' ≤ 1) := by
      rintro ⟨-, hall, -, -⟩
      rw [List.any_eq_true] at h
      obtain ⟨c, hc, hcd⟩ := h
      rw [List.all_eq_true] at hall
      have hd := hall c hc
      rw [hd] at hcd
      simp at hcd
    rw [ocrRead, if_neg hnot]
  · rw [ocrRead, if_pos (by decide)]
    congr 1
    show (digitsToNat ['7'] : ℚ) + (digitsToNat ['5'] : ℚ) / (10 : ℚ) ^ (['5'] : List Char).length = 15 / 2
    rw [show digitsToNat ['7'] = 7 from rfl, show digitsToNat ['5'] = 5 from rfl,
      show (['5'] : List Char).length = 1 from rfl]
    push_cast
    norm_num
  · intro s hs
    simp [updateSeatAmount, hs]

/-- Witness for C4: a failed read of a token carrying a non-amount
character, and a single unknown reading over a committed $75. -/
theorem unknownAmount_spec_witness :
    ocrRead "7a5" = Reading.unknown ∧
    (updateSeatAmount ⟨some 75, false⟩ Reading.unknown).committed = some 75 :=
  ⟨unknownAmount_spec.1 "7a5" (by decide),
    unknownAmount_spec.2.2.2.1 ⟨some 75, false⟩ rfl⟩

/-- C5: the detection pipeline is deterministic — two runs of the embedded
tracker over equal observation sequences yield the same GameState
sequence. -/
theorem detection_deterministic (s : TrackerState) (obs1 obs2 : List Cycle)
    (h : obs1 = obs2) : traceTracker s obs1 = traceTracker s obs2 := by
  rw [h]

/-- Witness for C5 on a concrete one-cycle replay. -/
theorem detection_deterministic_witness :
    traceTracker ⟨0, 0, [], none, []⟩ [⟨3, ["A♠"], none⟩] =
      traceTracker ⟨0, 0, [], none, []⟩ [⟨3, ["A♠"], none⟩] :=
  detection_deterministic ⟨0, 0, [], none, []⟩ [⟨3, ["A♠"], none⟩]
    [⟨3, ["A♠"], none⟩] rfl

/-- C6: `detectChanges` returns false exactly when the JSON serialization of
the new detections equals that of the previously stored detections, and true
exactly when the serializations differ; it reads nothing but the two
records. -/
theorem detectChanges_spec (prev nd : Json) :
    (detectChanges prev nd = false ↔ stringify nd = stringify prev) ∧
    (detectChanges prev nd = true ↔ stringify nd ≠ stringify prev) := by
  constructor
  · simp [detectChanges]
  · simp [detectChanges]

/-- Witness for C6 on two concrete records with different serializations. -/
theorem detectChanges_spec_witness :
    detectChanges Json.null (Json.num "1") = true :=
  (detectChanges_spec Json.null (Json.num "1")).2.mpr (by simp [stringify])

/-- Two one-character strings agree exactly when their characters do. -/
lemma string_singleton_inj (c d : Char) (h : String.singleton c = String.singleton d) :
    c = d := by
  have h2 : [c] = [d] := congrArg String.data h
  simpa using h2

/-- C8: `getSuitColor` looks only at the final character of the display
string — ♥ gives red, ♦ gives blue, ♣ gives green, and any other final
character (♠ included) or an empty string gives black. -/
theorem getSuitColor_spec :
    (∀ cs : List Char, getSuitColor (String.mk (cs ++ ['♥'])) = "red") ∧
    (∀ cs : List Char, getSuitColor (String.mk (cs ++ ['♦'])) = "blue") ∧
    (∀ cs : List Char, getSuitColor (String.mk (cs ++ ['♣'])) = "green") ∧
    (∀ (cs : List Char) (c : Char), c ≠ '♥' → c ≠ '♦' → c ≠ '♣' →
      getSuitColor (String.mk (cs ++ [c])) = "black") ∧
    getSuitColor "" = "black" ∧ getSuitColor "A♠" = "black" := by
  refine ⟨?_, ?_, ?_, ?_, by decide, by decide⟩
  · intro cs
    unfold getSuitColor sliceLast
    rw [show (String.mk (cs ++ ['♥'])).data = cs ++ ['♥'] from rfl, List.getLast?_concat]
    decide
  · intro cs
    unfold getSuitColor sliceLast
    rw [show (String.mk (cs ++ ['♦'])).data = cs ++ ['♦'] from rfl, List.getLast?_concat]
    decide
  · intro cs
    unfold getSuitColor sliceLast
    rw [show (String.mk (cs ++ ['♣'])).data = cs ++ ['♣'] from rfl, List.getLast?_concat]
    decide
  · intro cs c h1 h2 h3
    unfold getSuitColor sliceLast
    rw [show (String.mk (cs ++ [c])).data = cs ++ [c] from rfl, List.getLast?_concat]
    show (if String.singleton c = "♥" then "red"
      else if String.singleton c = "♦" then "blue"
      else if String.singleton c = "♣" then "green" else "black") = "black"
    have n1 : ¬(String.singleton c = "♥") := fun h => h1 (string_singleton_inj c '♥' h)
    have n2 : ¬(String.singleton c = "♦") := fun h => h2 (string_singleton_inj c '♦' h)
    have n3 : ¬(String.singleton c = "♣") := fun h => h3 (string_singleton_inj c '♣' h)
    rw [if_neg n1, if_neg n2, if_neg n3]

/-- Witness for C8: a spade card renders black, a heart card red. -/
theorem getSuitColor_spec_witness :
    getSuitColor (String.mk (['A'] ++ ['♠'])) = "black" ∧
    getSuitColor (String.mk (['K'] ++ ['♥'])) = "red" :=
  ⟨getSuitColor_spec.2.2.2.1 ['A'] '♠' (by decide) (by decide) (by decide),
    getSuitColor_spec.1 ['K']⟩

/-- C9: the rendered move text carries the dollar amount exactly when
`move.amount > 0`; an amount of zero and an absent amount both render as
just `player_label: action`, indistinguishably. -/
theorem renderMove_spec :
    (∀ (m : MoveRec) (a : Nat), m.amount = some a → 0 < a →
      renderMove m = "<div class=\"move\">" ++
        (m.player_label ++ ": " ++ m.action ++ " $" ++ toString a) ++ "</div>") ∧
    (∀ m : MoveRec, m.amount = none ∨ m.amount = some 0 →
      renderMove m = "<div class=\"move\">" ++
        (m.player_label ++ ": " ++ m.action) ++ "</div>") ∧
    (∀ labl act : String, renderMove ⟨labl, act, some 0⟩ = renderMove ⟨labl, act, none⟩) := by
  refine ⟨?_, ?_, ?_⟩
  · intro m a hm ha
    simp [renderMove, hm, ha]
  · intro m hm
    rcases hm with hm | hm <;> simp [renderMove, hm]
  · intro labl act
    simp [renderMove]

/-- Witness for C9: a raise to $100 renders with the amount, and a zero and
an absent amount render identically. -/
theorem renderMove_spec_witness :
    renderMove ⟨"Player 3", "raise", some 100⟩ =
      "<div class=\"move\">Player 3: raise $100</div>" ∧
    renderMove ⟨"Player 1", "check", some 0⟩ = renderMove ⟨"Player 1", "check", none⟩ :=
  ⟨renderMove_spec.1 ⟨"Player 3", "raise", some 100⟩ 100 rfl (by decide),
    renderMove_spec.2.2 "Player 1" "check"⟩

/-- C10: the clipboard text is the input with every JavaScript-whitespace
character removed, so the copied hand string is contiguous; null, undefined
and empty inputs all yield the empty string, and the output never contains
whitespace. -/
theorem copyToClipboard_spec :
    copyToClipboardText none = "" ∧
    copyToClipboardText (some "") = "" ∧
    (∀ s : String,
      copyToClipboardText (some s) = String.mk (s.data.filter (fun c => !isJsWhitespace c))) ∧
    (∀ t : Option String,
      ((copyToClipboardText t).data.all (fun c => !isJsWhitespace c)) = true) := by
  refine ⟨rfl, rfl, ?_, ?_⟩
  · intro s
    by_cases h : s = ""
    · subst h; rfl
    · simp [copyToClipboardText, stripWhitespace, h]
  · intro t
    match t with
    | none => decide
    | some s =>
      by_cases h : s = ""
      · subst h; decide
      · show ((if s = "" then "" else stripWhitespace s).data.all _) = true
        rw [if_neg h]
        rw [List.all_eq_true]
        intro c hc
        exact (List.mem_filter.mp hc).2

/-- Witness for C10 on a concrete hand string containing spaces. -/
theorem copyToClipboard_spec_witness :
    copyToClipboardText (some "A♠ K♦ 7♥ 2♣") = "A♠K♦7♥2♣" :=
  (copyToClipboard_spec.2.2.1 "A♠ K♦ 7♥ 2♣").trans (by decide)

/-- C2: a tracker step increments the hand epoch and clears the Move history
exactly when the community-card count decreases or the hole cards change;
any other step leaves the epoch unchanged and only ever appends to the
history; and whenever the epoch is unchanged the community-card count does
not decrease. -/
theorem trackerStep_spec (s : TrackerState) (o : Cycle) :
    (((stepTracker s o).epoch = s.epoch + 1 ∧ (stepTracker s o).history = []) ↔
      (o.commCount < s.commCount ∨ o.hole ≠ s.hole)) ∧
    (¬(o.commCount < s.commCount ∨ o.hole ≠ s.hole) →
      (stepTracker s o).epoch = s.epoch ∧
      ∃ t, (stepTracker s o).history = s.history ++ t) ∧
    ((stepTracker s o).epoch = s.epoch → s.commCount ≤ (stepTracker s o).commCount) := by
  by_cases hr : o.commCount < s.commCount ∨ o.hole ≠ s.hole
  · rw [stepTracker, if_pos hr]
    refine ⟨by simpa using hr, fun h => absurd hr h, fun h => absurd h (by simp)⟩
  · rw [stepTracker, if_neg hr]
    have hc : s.commCount ≤ o.commCount :=
      Nat.le_of_not_lt (fun hlt => hr (Or.inl hlt))
    rcases o.candidate with _ | m <;> rcases s.pending with _ | p
    · exact ⟨iff_of_false (by simp) hr,
        fun _ => ⟨rfl, [], (List.append_nil s.history).symm⟩, fun _ => hc⟩
    · exact ⟨iff_of_false (by simp) hr,
        fun _ => ⟨rfl, [], (List.append_nil s.history).symm⟩, fun _ => hc⟩
    · exact ⟨iff_of_false (by simp) hr,
        fun _ => ⟨rfl, [], (List.append_nil s.history).symm⟩, fun _ => hc⟩
    · by_cases hmp : m = p
      · subst hmp
        exact ⟨iff_of_false (by simp) hr,
          fun _ => ⟨by simp, [m], by simp⟩, fun _ => by simpa using hc⟩
      · exact ⟨iff_of_false (by simp [hmp]) hr,
          fun _ => ⟨by simp [hmp], [], by simp [hmp]⟩, fun _ => by simpa [hmp] using hc⟩

/-- Witness for C2: a count regression resets the hand, and a 0→3 count
advance keeps the epoch while the count does not decrease. -/
theorem trackerStep_spec_witness :
    ((stepTracker ⟨0, 5, ["A♠"], none, [⟨1, ActionKind.fold, none⟩]⟩
        ⟨0, ["A♠"], none⟩).epoch = 1 ∧
      (stepTracker ⟨0, 5, ["A♠"], none, [⟨1, ActionKind.fold, none⟩]⟩
        ⟨0, ["A♠"], none⟩).history = []) ∧
    ((stepTracker ⟨0, 0, [], none, []⟩ ⟨3, [], none⟩).epoch = 0 ∧
      ∃ t, (stepTracker ⟨0, 0, [], none, []⟩ ⟨3, [], none⟩).history = [] ++ t) ∧
    (0 : Nat) ≤ (stepTracker ⟨0, 0, [], none, []⟩ ⟨3, [], none⟩).commCount :=
  ⟨(trackerStep_spec ⟨0, 5, ["A♠"], none, [⟨1, ActionKind.fold, none⟩]⟩
      ⟨0, ["A♠"], none⟩).1.mpr (Or.inl (by decide)),
    (trackerStep_spec ⟨0, 0, [], none, []⟩ ⟨3, [], none⟩).2.1 (by decide),
    (trackerStep_spec ⟨0, 0, [], none, []⟩ ⟨3, [], none⟩).2.2 (by decide)⟩

/-- C7: each display toggle suppresses exactly its own section — a false
toggle makes its section builder return the empty string — and each section
builder reads no toggle but its own, so flipping any other toggle leaves its
output unchanged. -/
theorem displayToggles_spec (cfg cfg2 : Config) (d : Detection) (u : Bool) :
    (cfg.show_table_cards = false → createTableCardsSection cfg d u = "") ∧
    (cfg.show_positions = false → createPositionsSection cfg d u = "") ∧
    (cfg.show_moves = false → createMovesSection cfg d u = "") ∧
    (cfg.show_solver_link = false → createSolverLinkSection cfg d u = "") ∧
    (cfg.show_table_cards = cfg2.show_table_cards →
      createTableCardsSection cfg d u = createTableCardsSection cfg2 d u) ∧
    (cfg.show_positions = cfg2.show_positions →
      createPositionsSection cfg d u = createPositionsSection cfg2 d u) ∧
    (cfg.show_moves = cfg2.show_moves →
      createMovesSection cfg d u = createMovesSection cfg2 d u) ∧
    (cfg.show_solver_link = cfg2.show_solver_link →
      createSolverLinkSection cfg d u = createSolverLinkSection cfg2 d u) := by
  refine ⟨?_, ?_, ?_, ?_, ?_, ?_, ?_, ?_⟩
  · intro h; simp [createTableCardsSection, h]
  · intro h; simp [createPositionsSection, h]
  · intro h; simp [createMovesSection, h]
  · intro h; simp [createSolverLinkSection, h]
  · intro h; simp only [createTableCardsSection, h]
  · intro h; simp only [createPositionsSection, h]
  · intro h; simp only [createMovesSection, h]
  · intro h; simp only [createSolverLinkSection, h]

/-- Witness for C7 on a concrete detection record: all four sections empty
under all-false toggles, and the moves section is unchanged when only the
other toggles differ. -/
theorem displayToggles_spec_witness :
    createTableCardsSection ⟨3, false, false, false, false⟩ sampleDetection false = "" ∧
    createPositionsSection ⟨3, false, false, false, false⟩ sampleDetection false = "" ∧
    createMovesSection ⟨3, false, false, false, false⟩ sampleDetection false = "" ∧
    createSolverLinkSection ⟨3, false, false, false, false⟩ sampleDetection false = "" ∧
    createTableCardsSection ⟨3, true, true, true, true⟩ sampleDetection false =
      createTableCardsSection ⟨3, true, false, false, false⟩ sampleDetection false ∧
    createPositionsSection ⟨3, true, true, true, true⟩ sampleDetection false =
      createPositionsSection ⟨3, false, true, false, false⟩ sampleDetection false ∧
    createMovesSection ⟨3, true, true, true, true⟩ sampleDetection false =
      createMovesSection ⟨3, false, false, true, false⟩ sampleDetection false ∧
    createSolverLinkSection ⟨3, true, true, true, true⟩ sampleDetection false =
      createSolverLinkSection ⟨3, false, false, false, true⟩ sampleDetection false :=
  ⟨(displayToggles_spec ⟨3, false, false, false, false⟩ ⟨3, false, false, false, false⟩
      sampleDetection false).1 rfl,
    (displayToggles_spec ⟨3, false, false, false, false⟩ ⟨3, false, false, false, false⟩
      sampleDetection false).2.1 rfl,
    (displayToggles_spec ⟨3, false, false, false, false⟩ ⟨3, false, false, false, false⟩
      sampleDetection false).2.2.1 rfl,
    (displayToggles_spec ⟨3, false, false, false, false⟩ ⟨3, false, false, false, false⟩
      sampleDetection false).2.2.2.1 rfl,
    (displayToggles_spec ⟨3, true, true, true, true⟩ ⟨3, true, false, false, false⟩
      sampleDetection false).2.2.2.2.1 rfl,
    (displayToggles_spec ⟨3, true, true, true, true⟩ ⟨3, false, true, false, false⟩
      sampleDetection false).2.2.2.2.2.1 rfl,
    (displayToggles_spec ⟨3, true, true, true, true⟩ ⟨3, false, false, true, false⟩
      sampleDetection false).2.2.2.2.2.2.1 rfl,
    (displayToggles_spec ⟨3, true, true, true, true⟩ ⟨3, false, false, false, true⟩
      sampleDetection false).2.2.2.2.2.2.2 rfl⟩

/-- Any move in the history after running the tracker was already committed,
is about to be committed from the pending candidate, or was observed as the
candidate in two consecutive cycles of the run. -/
lemma mem_history_runTracker (obs : List Cycle) :
    ∀ (s : TrackerState) (m : MoveM), m ∈ (runTracker s obs).history →
      m ∈ s.history ∨
      (∃ o rest, obs = o :: rest ∧ s.pending = some m ∧ o.candidate = some m) ∨
      ConfirmedTwice m obs := by
  induction obs with
  | nil => exact fun s m hm => Or.inl hm
  | cons o rest ih =>
    intro s m hm
    rw [runTracker] at hm
    rcases ih (stepTracker s o) m hm with h1 | h2 | h3
    · by_cases hreset : o.commCount < s.commCount ∨ o.hole ≠ s.hole
      · rw [stepTracker, if_pos hreset] at h1
        simp at h1
      · rw [stepTracker, if_neg hreset] at h1
        rcases hoc : o.candidate with _ | m2 <;> rcases hsp : s.pending with _ | p <;>
          rw [hoc, hsp] at h1
        · exact Or.inl h1
        · exact Or.inl h1
        · exact Or.inl h1
        · by_cases hmp : m2 = p
          · subst hmp
            simp only [↓reduceIte] at h1
            simp only [List.mem_append, List.mem_singleton] at h1
            rcases h1 with h1 | h1
            · exact Or.inl h1
            · subst h1
              exact Or.inr (Or.inl ⟨o, rest, rfl, rfl, hoc⟩)
          · simp only [if_neg hmp] at h1
            exact Or.inl h1
    · obtain ⟨o2, rest2, hrest, hpend, hc2⟩ := h2
      by_cases hreset : o.commCount < s.commCount ∨ o.hole ≠ s.hole
      · rw [stepTracker, if_pos hreset] at hpend
        simp at hpend
      · rw [stepTracker, if_neg hreset] at hpend
        rcases hoc : o.candidate with _ | m2 <;> rcases hsp : s.pending with _ | p <;>
          rw [hoc, hsp] at hpend
        · simp at hpend
        · simp at hpend
        · simp only [Option.some.injEq] at hpend
          subst hpend
          subst hrest
          exact Or.inr (Or.inr (ConfirmedTwice.here o o2 rest2 hoc hc2))
        · by_cases hmp : m2 = p
          · subst hmp
            simp only [↓reduceIte] at hpend
            simp at hpend
          · simp only [if_neg hmp] at hpend
            simp only [Option.some.injEq] at hpend
            subst hpend
            subst hrest
            exact Or.inr (Or.inr (ConfirmedTwice.here o o2 rest2 hoc hc2))
    · exact Or.inr (Or.inr (ConfirmedTwice.there o rest h3))

/-- C3: starting from a state with no pending candidate and an empty history
(the start of a hand), every move found in the committed history after any
sequence of detection cycles was observed as the inferred candidate in two
consecutive cycles — a reading present in a single cycle never reaches the
committed history. -/
theorem moveHistory_debounced (obs : List Cycle) (s : TrackerState) (m : MoveM)
    (hpend : s.pending = none) (hhist : s.history = [])
    (hm : m ∈ (runTracker s obs).history) : ConfirmedTwice m obs := by
  rcases mem_history_runTracker obs s m hm with h | h | h
  · rw [hhist] at h
    simp at h
  · obtain ⟨o, rest, -, hp, -⟩ := h
    rw [hpend] at hp
    simp at hp
  · exact h

/-- Witness for C3: a raise candidate observed in two consecutive cycles is
committed and indeed confirmed twice. -/
theorem moveHistory_debounced_witness :
    ConfirmedTwice ⟨2, ActionKind.raise, some 100⟩
      [⟨0, ["A♠"], some ⟨2, ActionKind.raise, some 100⟩⟩,
        ⟨0, ["A♠"], some ⟨2, ActionKind.raise, some 100⟩⟩] :=
  moveHistory_debounced
    [⟨0, ["A♠"], some ⟨2, ActionKind.raise, some 100⟩⟩,
      ⟨0, ["A♠"], some ⟨2, ActionKind.raise, some 100⟩⟩]
    ⟨0, 0, ["A♠"], none, []⟩ ⟨2, ActionKind.raise, some 100⟩ rfl rfl (by decide)

end OmahaUpdate
